import Mathlib

/-!
Verification of the consumer descriptor model of `jsch/consumers.go`
(a JetStream management client).

The Go code is shallowly embedded:

* `server.ObservableConfig` (from the external `nats-server` package, used
  here as a plain record of configuration fields) becomes the structure
  `ObservableConfig`.  Go's `time.Time` and `time.Duration` are modelled as
  `Int` (nanoseconds); `uint64` sequence numbers as `Nat` (they are only
  stored, never computed with, so no wrap-around can arise).
* A `ConsumerOption` is, as in Go, a function mutating a configuration and
  possibly reporting an error.  Go mutates through a pointer and returns an
  `error`; we return the (possibly mutated) configuration together with an
  `Option String` carrying the error message, which is exactly the
  information flow of the Go code.
* The NATS connection `nc` (its `Request` and the various `Subscribe`
  calls) is modelled by a `Conn` record of response oracles, one per fixed
  request subject used by the code.  `json.Marshal` of a request struct
  cannot fail on these types so the dead `err != nil` branch after it is
  not modelled; `json.Unmarshal` of an info response and the
  `IsErrorResponse` classifier (defined in a repository file outside
  `src/`) are oracle fields of `Conn`, so every theorem below holds for
  every classifier and every decoder.
* Every network-touching function also returns the list of `NetOp`
  operations it performed, so "makes no network request" is the statement
  that this trace is `[]`.
-/

namespace Jsch

/-- `server.AckPolicy`: acknowledgement policy enumeration. -/
inductive AckPolicy where
  | AckNone
  | AckAll
  | AckExplicit
deriving Repr, DecidableEq

/-- `server.ReplayPolicy`: replay pacing enumeration. -/
inductive ReplayPolicy where
  | ReplayInstant
  | ReplayOriginal
deriving Repr, DecidableEq

/-- `server.ObservableConfig`: the consumer descriptor.  Field names and
order follow the fields the Go file reads and writes.  Defaults are Go's
zero values. -/
structure ObservableConfig where
  Delivery : String := ""
  Durable : String := ""
  MsgSetSeq : Nat := 0
  StartTime : Int := 0
  DeliverAll : Bool := false
  DeliverLast : Bool := false
  AckPolicy : AckPolicy := .AckNone
  AckWait : Int := 0
  MaxDeliver : Int := 0
  FilterSubject : String := ""
  ReplayPolicy : ReplayPolicy := .ReplayInstant
  SampleFrequency : String := ""
deriving Repr, DecidableEq

/-- `DefaultConsumer`: the default template. -/
def DefaultConsumer : ObservableConfig :=
  { DeliverAll := true
    AckPolicy := .AckExplicit
    AckWait := 30 * 1000000000
    ReplayPolicy := .ReplayInstant }

/-- `SampledDefaultConsumer`: the default template plus 100% sampling. -/
def SampledDefaultConsumer : ObservableConfig :=
  { DeliverAll := true
    AckPolicy := .AckExplicit
    AckWait := 30 * 1000000000
    ReplayPolicy := .ReplayInstant
    SampleFrequency := "100%" }

/-- `ConsumerOption`: as in Go, a function from a descriptor to the mutated
descriptor, plus an optional error message (`none` = success). -/
def ConsumerOption : Type := ObservableConfig → ObservableConfig × Option String

/-- `DeliverySubject(s)`. -/
def DeliverySubject (s : String) : ConsumerOption :=
  fun o => ({ o with Delivery := s }, none)

/-- `DurableName(s)`. -/
def DurableName (s : String) : ConsumerOption :=
  fun o => ({ o with Durable := s }, none)

/-- `StartAtSequence(s)`. -/
def StartAtSequence (s : Nat) : ConsumerOption :=
  fun o => ({ o with MsgSetSeq := s }, none)

/-- `StartAtTime(t)`. -/
def StartAtTime (t : Int) : ConsumerOption :=
  fun o => ({ o with StartTime := t }, none)

/-- `DeliverAllAvailable()`. -/
def DeliverAllAvailable : ConsumerOption :=
  fun o => ({ o with DeliverAll := true }, none)

/-- `StartWithLastReceived()`. -/
def StartWithLastReceived : ConsumerOption :=
  fun o => ({ o with DeliverLast := true }, none)

/-- `StartAtTimeDelta(d)`: sets the start time to `time.Now().Add(-1*d)`;
the impure `time.Now()` is passed in as `now`. -/
def StartAtTimeDelta (now : Int) (d : Int) : ConsumerOption :=
  fun o => ({ o with StartTime := now - d }, none)

/-- `AcknowledgeNone()`. -/
def AcknowledgeNone : ConsumerOption :=
  fun o => ({ o with AckPolicy := .AckNone }, none)

/-- `AcknowledgeAll()`. -/
def AcknowledgeAll : ConsumerOption :=
  fun o => ({ o with AckPolicy := .AckAll }, none)

/-- `AcknowledgeExplicit()`. -/
def AcknowledgeExplicit : ConsumerOption :=
  fun o => ({ o with AckPolicy := .AckExplicit }, none)

/-- `AckWait(t)`. -/
def AckWait (t : Int) : ConsumerOption :=
  fun o => ({ o with AckWait := t }, none)

/-- `MaxDeliveryAttempts(n)`: rejects `n == 0`, otherwise sets the cap. -/
def MaxDeliveryAttempts (n : Int) : ConsumerOption :=
  fun o =>
    if n == 0 then (o, some "configuration would prevent all deliveries")
    else ({ o with MaxDeliver := n }, none)

/-- `FilterStreamBySubject(s)`. -/
def FilterStreamBySubject (s : String) : ConsumerOption :=
  fun o => ({ o with FilterSubject := s }, none)

/-- `ReplayInstantly()`. -/
def ReplayInstantly : ConsumerOption :=
  fun o => ({ o with ReplayPolicy := .ReplayInstant }, none)

/-- `ReplayAsReceived()`. -/
def ReplayAsReceived : ConsumerOption :=
  fun o => ({ o with ReplayPolicy := .ReplayOriginal }, none)

/-- `SamplePercent(i)`: rejects `i` outside `[0,100]`; `i == 0` clears the
sample frequency; otherwise stores `fmt.Sprintf("%d%%", i)`. -/
def SamplePercent (i : Int) : ConsumerOption :=
  fun o =>
    if i < 0 || i > 100 then (o, some "sample percent must be 0-100")
    else if i == 0 then ({ o with SampleFrequency := "" }, none)
    else ({ o with SampleFrequency := toString i ++ "%" }, none)

/-- `NewConsumerConfiguration(template, opts...)`: applies the options in
order to (a by-value copy of) the template, stopping at, and returning, the
first error together with the configuration mutated so far. -/
def NewConsumerConfiguration (template : ObservableConfig) :
    List ConsumerOption → ObservableConfig × Option String
  | [] => (template, none)
  | o :: rest =>
    match o template with
    | (t, some e) => (t, some e)
    | (t, none) => NewConsumerConfiguration t rest

/-- The option constructors actually exported by `consumers.go` (the Go
`ConsumerOption` type also admits arbitrary caller-written closures; the
claims about option application quantify over the catalog of this file). -/
def IsCatalogOption (o : ConsumerOption) : Prop :=
  (∃ s, o = DeliverySubject s) ∨
  (∃ s, o = DurableName s) ∨
  (∃ n, o = StartAtSequence n) ∨
  (∃ t, o = StartAtTime t) ∨
  (∃ now d, o = StartAtTimeDelta now d) ∨
  o = DeliverAllAvailable ∨
  o = StartWithLastReceived ∨
  o = AcknowledgeNone ∨
  o = AcknowledgeAll ∨
  o = AcknowledgeExplicit ∨
  (∃ t, o = AckWait t) ∨
  (∃ n, o = MaxDeliveryAttempts n) ∨
  (∃ s, o = FilterStreamBySubject s) ∨
  o = ReplayInstantly ∨
  o = ReplayAsReceived ∨
  (∃ i, o = SamplePercent i)

/-- `server.ObservableState`: live operational counters returned by a
describe request.  No claim inspects its contents, only that it travels
next to the configuration, so only representative counters are kept. -/
structure ObservableState where
  Delivered : Nat := 0
  AckFloor : Nat := 0
deriving Repr, DecidableEq

/-- `server.ObservableInfo`: the payload of a describe response. -/
structure ObservableInfo where
  Config : ObservableConfig := {}
  State : ObservableState := {}
deriving Repr, DecidableEq

/-- `server.CreateObservableRequest`: payload of a create request. -/
structure CreateObservableRequest where
  MsgSet : String
  Config : ObservableConfig
deriving Repr, DecidableEq

/-- `Consumer`: the handle bound to one named descriptor in one stream. -/
structure Consumer where
  name : String
  stream : String
  cfg : ObservableConfig := {}
deriving Repr, DecidableEq

/-- `server.OK`: success marker prefix of a create response (constant of
the external server package). -/
def OK : String := "+OK"

/-- `server.JetStreamRequestNextPre`: fixed prefix of pull-fetch subjects
(constant of the external server package; the exact text is immaterial to
the claims, which only call it a fixed prefix). -/
def JetStreamRequestNextPre : String := "$JS.RN"

/-- `server.JetStreamObservableAckSamplePre`: fixed prefix of ack-sample
subjects (constant of the external server package; exact text immaterial). -/
def JetStreamObservableAckSamplePre : String := "$JS.OA"

/-- Model of Go's `strings.HasPrefix(s, pre)` (true iff `pre` is a prefix
of `s`), computed on the underlying character lists. -/
def hasPrefix (s pre : String) : Bool := pre.data.isPrefixOf s.data

/-- One network operation performed through the shared connection `nc`.
Create requests are recorded with their structured payload (the JSON
encoding is an opaque serialize capability and cannot fail on these
types). -/
inductive NetOp where
  | createRequest (req : CreateObservableRequest)
  | infoRequest (payload : String)
  | nextRequest (subject : String) (payload : String)
  | subscribeOp (variant : String) (subject : String)
deriving Repr, DecidableEq

/-- The connection `nc` plus the opaque decode/classify capabilities,
modelled as response oracles.  `reply*` model `nc.Request` on the fixed
subjects (`Except.error` = transport failure, `Except.ok` = response
data); subscription oracles return an abstract subscription handle, with
handlers and channels passed as opaque `Nat` tokens.  `isErrorResponse`
models the repository's `IsErrorResponse` helper (defined outside
`src/`), `unmarshalInfo` models `json.Unmarshal` into an
`ObservableInfo`; the theorems hold for every choice of these. -/
structure Conn where
  replyCreate : CreateObservableRequest → Except String String
  replyInfo : String → Except String String
  replyNext : String → String → Except String String
  isErrorResponse : String → Bool
  unmarshalInfo : String → Except String ObservableInfo
  sub : String → Nat → Except String Nat
  chanSub : String → Nat → Except String Nat
  chanQueueSub : String → String → Nat → Except String Nat
  subSync : String → Except String Nat
  queueSub : String → String → Nat → Except String Nat
  queueSubSync : String → String → Except String Nat
  queueSubSyncChan : String → String → Nat → Except String Nat

namespace Consumer

/-- `Consumer.Name`. -/
def Name (c : Consumer) : String := c.name

/-- `Consumer.StreamName`. -/
def StreamName (c : Consumer) : String := c.stream

/-- `Consumer.DeliverySubject`. -/
def DeliverySubject (c : Consumer) : String := c.cfg.Delivery

/-- `Consumer.DurableName`. -/
def DurableName (c : Consumer) : String := c.cfg.Durable

/-- `Consumer.SampleFrequency`. -/
def SampleFrequency (c : Consumer) : String := c.cfg.SampleFrequency

/-- `Consumer.IsPullMode`: the delivery subject is empty. -/
def IsPullMode (c : Consumer) : Bool := c.cfg.Delivery == ""

/-- `Consumer.IsPushMode`: negation of pull mode. -/
def IsPushMode (c : Consumer) : Bool := !c.IsPullMode

/-- `Consumer.IsDurable`: the durable name is non-empty. -/
def IsDurable (c : Consumer) : Bool := c.cfg.Durable != ""

/-- `Consumer.NextSubject`: pull-fetch subject, empty when not pull-based. -/
def NextSubject (c : Consumer) : String :=
  if !c.IsPullMode then ""
  else JetStreamRequestNextPre ++ "." ++ c.stream ++ "." ++ c.name

/-- `Consumer.SampleSubject`: ack-sample subject, empty when unsampled. -/
def SampleSubject (c : Consumer) : String :=
  if c.SampleFrequency == "" then ""
  else JetStreamObservableAckSamplePre ++ "." ++ c.StreamName ++ "." ++ c.name

/-- `Consumer.IsSampled`: the computed sample subject is non-empty. -/
def IsSampled (c : Consumer) : Bool := c.SampleSubject != ""

end Consumer

/-- `loadConsumerInfo(s, c)`: describe request keyed by `s + " " + c`;
fails on transport error, on an error-marker response, or when the
response fails to unmarshal. -/
def loadConsumerInfo (conn : Conn) (s c : String) :
    Except String ObservableInfo × List NetOp :=
  let tr : List NetOp := [.infoRequest (s ++ " " ++ c)]
  match conn.replyInfo (s ++ " " ++ c) with
  | .error e => (.error e, tr)
  | .ok data =>
    if conn.isErrorResponse data then (.error data, tr)
    else
      match conn.unmarshalInfo data with
      | .error e => (.error e, tr)
      | .ok info => (.ok info, tr)

/-- `loadConfigForConsumer(consumer)`: loads the info and, only on full
success, replaces the handle's cached configuration. -/
def loadConfigForConsumer (conn : Conn) (c : Consumer) :
    (Except String Unit × Consumer) × List NetOp :=
  match loadConsumerInfo conn c.stream c.name with
  | (.error e, tr) => ((.error e, c), tr)
  | (.ok info, tr) => ((.ok (), { c with cfg := info.Config }), tr)

/-- `Consumer.Reset()`: reloads the configuration from the server. -/
def Consumer.Reset (conn : Conn) (c : Consumer) :
    (Except String Unit × Consumer) × List NetOp :=
  loadConfigForConsumer conn c

/-- `LoadConsumer(stream, name)`: builds a bare handle and populates its
configuration; returns no handle on any load failure. -/
def LoadConsumer (conn : Conn) (stream name : String) :
    Except String Consumer × List NetOp :=
  let consumer : Consumer := { name := name, stream := stream }
  match loadConfigForConsumer conn consumer with
  | ((.error e, _), tr) => (.error e, tr)
  | ((.ok _, c), tr) => (.ok c, tr)

/-- `NewConsumerFromTemplate(stream, template, opts...)`: applies the
options, submits a create request, checks the `+OK` marker, then re-loads
durable consumers by name; ephemeral consumers yield `nil, nil`
(`Except.ok none`). -/
def NewConsumerFromTemplate (conn : Conn) (stream : String)
    (template : ObservableConfig) (opts : List ConsumerOption) :
    Except String (Option Consumer) × List NetOp :=
  match NewConsumerConfiguration template opts with
  | (_, some e) => (.error e, [])
  | (cfg, none) =>
    let req : CreateObservableRequest := { MsgSet := stream, Config := cfg }
    match conn.replyCreate req with
    | .error e => (.error e, [.createRequest req])
    | .ok data =>
      if !(hasPrefix data OK) then (.error data, [.createRequest req])
      else if cfg.Durable != "" then
        match LoadConsumer conn stream cfg.Durable with
        | (.error e, tr) => (.error e, .createRequest req :: tr)
        | (.ok c, tr) => (.ok (some c), .createRequest req :: tr)
      else (.ok none, [.createRequest req])

/-- `NewConsumer(stream, opts...)`. -/
def NewConsumer (conn : Conn) (stream : String) (opts : List ConsumerOption) :
    Except String (Option Consumer) × List NetOp :=
  NewConsumerFromTemplate conn stream DefaultConsumer opts

/-- `LoadOrNewConsumerFromTemplate(stream, name, template, opts...)`:
tries `LoadConsumer`; on failure of any kind (in the Go code the returned
consumer is `nil` exactly when the error is non-nil) falls back to
`NewConsumerFromTemplate` with the same arguments. -/
def LoadOrNewConsumerFromTemplate (conn : Conn) (stream name : String)
    (template : ObservableConfig) (opts : List ConsumerOption) :
    Except String (Option Consumer) × List NetOp :=
  match LoadConsumer conn stream name with
  | (.error _, tr) =>
    let (r, tr2) := NewConsumerFromTemplate conn stream template opts
    (r, tr ++ tr2)
  | (.ok c, tr) => (.ok (some c), tr)

/-- `LoadOrNewConsumer(stream, name, opts...)`. -/
def LoadOrNewConsumer (conn : Conn) (stream name : String)
    (opts : List ConsumerOption) : Except String (Option Consumer) × List NetOp :=
  LoadOrNewConsumerFromTemplate conn stream name DefaultConsumer opts

/-- Error text of the push-mode precondition failures. -/
def notPushBased (c : Consumer) : String :=
  "consumer " ++ c.stream ++ " > " ++ c.name ++ " is not push-based"

/-- Error text of the pull-mode precondition failure. -/
def notPullBased (c : Consumer) : String :=
  "consumer " ++ c.stream ++ " > " ++ c.name ++ " is not pull-based"

/-- `Consumer.Subscribe(h)`: push-mode only. -/
def Consumer.Subscribe (conn : Conn) (c : Consumer) (h : Nat) :
    Except String Nat × List NetOp :=
  if !c.IsPushMode then (.error (notPushBased c), [])
  else (conn.sub c.DeliverySubject h, [.subscribeOp "sub" c.DeliverySubject])

/-- `Consumer.ChanSubscribe(ch)`: push-mode only. -/
def Consumer.ChanSubscribe (conn : Conn) (c : Consumer) (ch : Nat) :
    Except String Nat × List NetOp :=
  if !c.IsPushMode then (.error (notPushBased c), [])
  else (conn.chanSub c.DeliverySubject ch, [.subscribeOp "chanSub" c.DeliverySubject])

/-- `Consumer.ChanQueueSubscribe(group, ch)`: push-mode only. -/
def Consumer.ChanQueueSubscribe (conn : Conn) (c : Consumer) (group : String)
    (ch : Nat) : Except String Nat × List NetOp :=
  if !c.IsPushMode then (.error (notPushBased c), [])
  else (conn.chanQueueSub c.DeliverySubject group ch,
        [.subscribeOp "chanQueueSub" c.DeliverySubject])

/-- `Consumer.SubscribeSync()`: push-mode only. -/
def Consumer.SubscribeSync (conn : Conn) (c : Consumer) :
    Except String Nat × List NetOp :=
  if !c.IsPushMode then (.error (notPushBased c), [])
  else (conn.subSync c.DeliverySubject, [.subscribeOp "subSync" c.DeliverySubject])

/-- `Consumer.QueueSubscribe(queue, h)`: push-mode only. -/
def Consumer.QueueSubscribe (conn : Conn) (c : Consumer) (queue : String)
    (h : Nat) : Except String Nat × List NetOp :=
  if !c.IsPushMode then (.error (notPushBased c), [])
  else (conn.queueSub c.DeliverySubject queue h,
        [.subscribeOp "queueSub" c.DeliverySubject])

/-- `Consumer.QueueSubscribeSync(queue)`: push-mode only. -/
def Consumer.QueueSubscribeSync (conn : Conn) (c : Consumer) (queue : String) :
    Except String Nat × List NetOp :=
  if !c.IsPushMode then (.error (notPushBased c), [])
  else (conn.queueSubSync c.DeliverySubject queue,
        [.subscribeOp "queueSubSync" c.DeliverySubject])

/-- `Consumer.QueueSubscribeSyncWithChan(queue, ch)`: push-mode only. -/
def Consumer.QueueSubscribeSyncWithChan (conn : Conn) (c : Consumer)
    (queue : String) (ch : Nat) : Except String Nat × List NetOp :=
  if !c.IsPushMode then (.error (notPushBased c), [])
  else (conn.queueSubSyncChan c.DeliverySubject queue ch,
        [.subscribeOp "queueSubSyncChan" c.DeliverySubject])

/-- `Consumer.NextMsgs(n)`: pull-mode only; requests `n` (as its decimal
string) on the computed next-subject. -/
def Consumer.NextMsgs (conn : Conn) (c : Consumer) (n : Int) :
    Except String String × List NetOp :=
  if !c.IsPullMode then (.error (notPullBased c), [])
  else (conn.replyNext c.NextSubject (toString n),
        [.nextRequest c.NextSubject (toString n)])

/-- `Consumer.NextMsg()`: exactly `NextMsgs(1)`. -/
def Consumer.NextMsg (conn : Conn) (c : Consumer) :
    Except String String × List NetOp :=
  c.NextMsgs conn 1

/-! ### Helper lemmas -/

theorem isCatalog_DurableName (s : String) : IsCatalogOption (DurableName s) :=
  Or.inr (Or.inl ⟨s, rfl⟩)

theorem isCatalog_AcknowledgeNone : IsCatalogOption AcknowledgeNone :=
  Or.inr (Or.inr (Or.inr (Or.inr (Or.inr (Or.inr (Or.inr (Or.inl rfl)))))))

theorem isCatalog_MaxDeliveryAttempts (n : Int) :
    IsCatalogOption (MaxDeliveryAttempts n) :=
  Or.inr (Or.inr (Or.inr (Or.inr (Or.inr (Or.inr (Or.inr (Or.inr (Or.inr
    (Or.inr (Or.inr (Or.inl ⟨n, rfl⟩)))))))))))

/-- Every option exported by the file leaves the configuration unchanged
whenever it reports an error (the two failing options validate before
mutating). -/
theorem catalogOption_error_unchanged (o : ConsumerOption)
    (ho : IsCatalogOption o) (cfg t : ObservableConfig) (e : String)
    (h : o cfg = (t, some e)) : t = cfg := by
  rcases ho with ⟨s, rfl⟩ | ⟨s, rfl⟩ | ⟨n, rfl⟩ | ⟨u, rfl⟩ | ⟨now, d, rfl⟩ |
    rfl | rfl | rfl | rfl | rfl | ⟨u, rfl⟩ | ⟨n, rfl⟩ | ⟨s, rfl⟩ | rfl | rfl |
    ⟨i, rfl⟩
  all_goals first
    | (simp [DeliverySubject, DurableName, StartAtSequence, StartAtTime,
        StartAtTimeDelta, DeliverAllAvailable, StartWithLastReceived,
        AcknowledgeNone, AcknowledgeAll, AcknowledgeExplicit, AckWait,
        FilterStreamBySubject, ReplayInstantly, ReplayAsReceived] at h)
    | (simp only [MaxDeliveryAttempts] at h
       split at h
       · exact (Prod.mk.injEq _ _ _ _ ▸ h).1.symm
       · simp at h)
    | (simp only [SamplePercent] at h
       split at h
       · exact (Prod.mk.injEq _ _ _ _ ▸ h).1.symm
       · split at h <;> simp at h)

theorem NewConsumerConfiguration_nil (template : ObservableConfig) :
    NewConsumerConfiguration template [] = (template, none) := rfl

theorem NewConsumerConfiguration_cons (o : ConsumerOption)
    (rest : List ConsumerOption) (template : ObservableConfig) :
    NewConsumerConfiguration template (o :: rest)
      = match o template with
        | (t, some e) => (t, some e)
        | (t, none) => NewConsumerConfiguration t rest := rfl

/-- Once a prefix of the option list has been applied without error,
applying the whole list is applying the remainder to the intermediate
configuration. -/
theorem NewConsumerConfiguration_append (pre rest : List ConsumerOption)
    (template c : ObservableConfig)
    (h : NewConsumerConfiguration template pre = (c, none)) :
    NewConsumerConfiguration template (pre ++ rest)
      = NewConsumerConfiguration c rest := by
  induction pre generalizing template with
  | nil =>
    rw [NewConsumerConfiguration_nil] at h
    injection h with h1 _
    subst h1
    rfl
  | cons o pre ih =>
    rw [List.cons_append]
    rw [NewConsumerConfiguration_cons] at h ⊢
    rcases ho : o template with ⟨t, et⟩
    rw [ho] at h
    cases et with
    | some e => simp at h
    | none => exact ih t h

/-- A subject of the shape `prefix.stream.name` is never the empty string. -/
theorem dotted_ne_empty (p s n : String) : p ++ "." ++ s ++ "." ++ n ≠ "" := by
  intro h
  have hl := congrArg String.length h
  simp only [String.length_append] at hl
  have d1 : ("." : String).length = 1 := rfl
  have d0 : ("" : String).length = 0 := rfl
  rw [d1, d0] at hl
  omega

/-- A sample frequency of the shape `i%` is never the empty string. -/
theorem percent_ne_empty (s : String) : s ++ "%" ≠ "" := by
  intro h
  have hl := congrArg String.length h
  simp only [String.length_append] at hl
  have d1 : ("%" : String).length = 1 := rfl
  have d0 : ("" : String).length = 0 := rfl
  rw [d1, d0] at hl
  omega

/-! ### Concrete worlds used by the witnesses -/

/-- A fixed info payload decoded by `sampleConn`. -/
def sampleInfo : ObservableInfo :=
  { Config := { Durable := "D1", AckPolicy := .AckExplicit, DeliverAll := true }
    State := { Delivered := 7, AckFloor := 3 } }

/-- A healthy server: create requests succeed, describe requests return a
payload that decodes to `sampleInfo`, subscriptions succeed. -/
def sampleConn : Conn :=
  { replyCreate := fun _ => .ok "+OK"
    replyInfo := fun _ => .ok "INFO"
    replyNext := fun _ _ => .ok "MSG"
    isErrorResponse := fun d => hasPrefix d "-ERR"
    unmarshalInfo := fun d => if d == "INFO" then .ok sampleInfo else .error "invalid character"
    sub := fun _ _ => .ok 1
    chanSub := fun _ _ => .ok 1
    chanQueueSub := fun _ _ _ => .ok 1
    subSync := fun _ => .ok 1
    queueSub := fun _ _ _ => .ok 1
    queueSubSync := fun _ _ => .ok 1
    queueSubSyncChan := fun _ _ _ => .ok 1 }

/-- A server whose describe requests fail at the transport. -/
def failConn : Conn :=
  { sampleConn with replyInfo := fun _ => .error "nats: timeout" }

/-- The trace of a describe exchange is always the single info request,
whatever the outcome. -/
theorem loadConsumerInfo_trace (conn : Conn) (s c : String) :
    (loadConsumerInfo conn s c).2 = [.infoRequest (s ++ " " ++ c)] := by
  unfold loadConsumerInfo
  cases conn.replyInfo (s ++ " " ++ c) with
  | error e => rfl
  | ok data =>
    simp only
    split
    · rfl
    · cases conn.unmarshalInfo data with
      | error e => rfl
      | ok info => rfl

/-- The trace of `loadConfigForConsumer` is the single info request. -/
theorem loadConfigForConsumer_trace (conn : Conn) (c : Consumer) :
    (loadConfigForConsumer conn c).2 = [.infoRequest (c.stream ++ " " ++ c.name)] := by
  unfold loadConfigForConsumer
  rcases h : loadConsumerInfo conn c.stream c.name with ⟨r, tr⟩
  have ht := loadConsumerInfo_trace conn c.stream c.name
  rw [h] at ht
  cases r <;> simpa using ht

/-- The trace of `LoadConsumer` is the single info request. -/
theorem LoadConsumer_trace (conn : Conn) (stream name : String) :
    (LoadConsumer conn stream name).2 = [.infoRequest (stream ++ " " ++ name)] := by
  unfold LoadConsumer loadConfigForConsumer loadConsumerInfo
  dsimp only
  cases conn.replyInfo (stream ++ " " ++ name) with
  | error e => rfl
  | ok data =>
    dsimp only
    cases hE : conn.isErrorResponse data with
    | true => rfl
    | false =>
      cases hU : conn.unmarshalInfo data with
      | error e => rfl
      | ok info => rfl

/-! ### Claim theorems -/

/-- C1: if an option in the list fails, the build aborts at the first
failing option: NewConsumerFromTemplate returns no handle and performs no
network operation, and the configuration reached at the failure point is
exactly the one produced by the options before the failing one —
unmodified by the failing option and by all later options. -/
theorem buildAbortsOnOptionFailure (conn : Conn) (stream : String)
    (template : ObservableConfig) (pre post : List ConsumerOption)
    (o : ConsumerOption) (c1 c2 : ObservableConfig) (e : String)
    (hcat : ∀ x ∈ pre ++ o :: post, IsCatalogOption x)
    (hpre : NewConsumerConfiguration template pre = (c1, none))
    (hfail : o c1 = (c2, some e)) :
    NewConsumerFromTemplate conn stream template (pre ++ o :: post)
      = (.error e, [])
    ∧ NewConsumerConfiguration template (pre ++ o :: post) = (c1, some e) := by
  have hmem : IsCatalogOption o := hcat o (by simp)
  have hc : c2 = c1 := catalogOption_error_unchanged o hmem c1 c2 e hfail
  have hall : NewConsumerConfiguration template (pre ++ o :: post) = (c1, some e) := by
    rw [NewConsumerConfiguration_append pre (o :: post) template c1 hpre,
      NewConsumerConfiguration_cons, hfail, hc]
  refine ⟨?_, hall⟩
  simp only [NewConsumerFromTemplate, hall]

/-- C1 witness: a durable-name option followed by the failing
MaxDeliveryAttempts(0) and a later ack option. -/
theorem buildAbortsOnOptionFailure_witness :
    NewConsumerFromTemplate sampleConn "ORDERS" DefaultConsumer
        [DurableName "D1", MaxDeliveryAttempts 0, AcknowledgeNone]
      = (.error "configuration would prevent all deliveries", [])
    ∧ NewConsumerConfiguration DefaultConsumer
        [DurableName "D1", MaxDeliveryAttempts 0, AcknowledgeNone]
      = ({ DefaultConsumer with Durable := "D1" },
         some "configuration would prevent all deliveries") :=
  buildAbortsOnOptionFailure sampleConn "ORDERS" DefaultConsumer
    [DurableName "D1"] [AcknowledgeNone] (MaxDeliveryAttempts 0)
    { DefaultConsumer with Durable := "D1" }
    { DefaultConsumer with Durable := "D1" }
    "configuration would prevent all deliveries"
    (by
      intro x hx
      simp only [List.cons_append, List.nil_append, List.mem_cons,
        List.not_mem_nil, or_false] at hx
      rcases hx with rfl | rfl | rfl
      · exact isCatalog_DurableName "D1"
      · exact isCatalog_MaxDeliveryAttempts 0
      · exact isCatalog_AcknowledgeNone)
    rfl rfl

/-- C7: on a successful create exchange, a durable configuration is
immediately re-loaded by name and the load's outcome is returned verbatim
(the create request preceding the load's request in the trace); an
ephemeral configuration yields no handle and no error. -/
theorem buildDurableReloads (conn : Conn) (stream : String)
    (template : ObservableConfig) (opts : List ConsumerOption)
    (cfg : ObservableConfig) (data : String)
    (hcfg : NewConsumerConfiguration template opts = (cfg, none))
    (hresp : conn.replyCreate { MsgSet := stream, Config := cfg } = .ok data)
    (hok : hasPrefix data OK = true) :
    (cfg.Durable ≠ "" →
      NewConsumerFromTemplate conn stream template opts
        = ((LoadConsumer conn stream cfg.Durable).1.map some,
           .createRequest { MsgSet := stream, Config := cfg }
             :: (LoadConsumer conn stream cfg.Durable).2))
    ∧ (cfg.Durable = "" →
      NewConsumerFromTemplate conn stream template opts
        = (.ok none, [.createRequest { MsgSet := stream, Config := cfg }])) := by
  constructor
  · intro hd
    have hbne : (cfg.Durable != "") = true := bne_iff_ne.mpr hd
    rcases hload : LoadConsumer conn stream cfg.Durable with ⟨r, tr⟩
    cases r with
    | error e =>
      simp [NewConsumerFromTemplate, hcfg, hresp, hok, hbne, hload, Except.map]
    | ok c =>
      simp [NewConsumerFromTemplate, hcfg, hresp, hok, hbne, hload, Except.map]
  · intro hd
    simp [NewConsumerFromTemplate, hcfg, hresp, hok, hd]

/-- C7 witness: a durable build re-loads by name; an ephemeral build
returns no handle and no error. -/
theorem buildDurableReloads_witness :
    NewConsumerFromTemplate sampleConn "ORDERS" DefaultConsumer [DurableName "D1"]
      = ((LoadConsumer sampleConn "ORDERS" "D1").1.map some,
         .createRequest { MsgSet := "ORDERS",
                          Config := { DefaultConsumer with Durable := "D1" } }
           :: (LoadConsumer sampleConn "ORDERS" "D1").2)
    ∧ NewConsumerFromTemplate sampleConn "EVENTS" DefaultConsumer []
      = (.ok none, [.createRequest { MsgSet := "EVENTS", Config := DefaultConsumer }]) :=
  ⟨(buildDurableReloads sampleConn "ORDERS" DefaultConsumer [DurableName "D1"]
      { DefaultConsumer with Durable := "D1" } "+OK" rfl rfl (by decide)).1
      (by decide),
   (buildDurableReloads sampleConn "EVENTS" DefaultConsumer [] DefaultConsumer
      "+OK" rfl rfl (by decide)).2 rfl⟩

/-- C8: LoadOrNewConsumerFromTemplate first attempts the load (whose
network trace is always exactly the one describe request, never a create);
on a load failure of any kind it falls back to the build with the same
stream, template and options; on load success the loaded handle is
returned and no build occurs. -/
theorem loadOrBuildFallback (conn : Conn) (stream name : String)
    (template : ObservableConfig) (opts : List ConsumerOption) :
    (LoadConsumer conn stream name).2 = [.infoRequest (stream ++ " " ++ name)]
    ∧ (∀ e tr, LoadConsumer conn stream name = (.error e, tr) →
        LoadOrNewConsumerFromTemplate conn stream name template opts
          = ((NewConsumerFromTemplate conn stream template opts).1,
             tr ++ (NewConsumerFromTemplate conn stream template opts).2))
    ∧ (∀ c tr, LoadConsumer conn stream name = (.ok c, tr) →
        LoadOrNewConsumerFromTemplate conn stream name template opts
          = (.ok (some c), tr)) := by
  refine ⟨LoadConsumer_trace conn stream name, ?_, ?_⟩
  · intro e tr h
    rcases hb : NewConsumerFromTemplate conn stream template opts with ⟨r2, tr2⟩
    simp [LoadOrNewConsumerFromTemplate, h, hb]
  · intro c tr h
    simp [LoadOrNewConsumerFromTemplate, h]

/-- C8 witness: a failing load falls through to the build; a successful
load returns the loaded handle with only the describe request made. -/
theorem loadOrBuildFallback_witness :
    LoadOrNewConsumerFromTemplate failConn "ORDERS" "C1" DefaultConsumer []
      = ((NewConsumerFromTemplate failConn "ORDERS" DefaultConsumer []).1,
         [.infoRequest "ORDERS C1"]
           ++ (NewConsumerFromTemplate failConn "ORDERS" DefaultConsumer []).2)
    ∧ LoadOrNewConsumerFromTemplate sampleConn "ORDERS" "C1" DefaultConsumer []
      = (.ok (some { name := "C1", stream := "ORDERS", cfg := sampleInfo.Config }),
         [.infoRequest "ORDERS C1"]) :=
  ⟨(loadOrBuildFallback failConn "ORDERS" "C1" DefaultConsumer []).2.1
      "nats: timeout" [.infoRequest "ORDERS C1"] rfl,
   (loadOrBuildFallback sampleConn "ORDERS" "C1" DefaultConsumer []).2.2
      { name := "C1", stream := "ORDERS", cfg := sampleInfo.Config }
      [.infoRequest "ORDERS C1"] rfl⟩

/-- C9: every subscribe variant invoked on a pull-mode handle fails
immediately with the "not push-based" error and performs no network
operation; fetch-next on a push-mode handle fails immediately with the
"not pull-based" error and performs no network operation; fetch-one is
exactly fetch-next(1). -/
theorem modePreconditions (conn : Conn) (c : Consumer) (h ch : Nat)
    (group queue : String) (n : Int) :
    (c.IsPullMode = true →
      c.Subscribe conn h = (.error (notPushBased c), [])
      ∧ c.ChanSubscribe conn ch = (.error (notPushBased c), [])
      ∧ c.ChanQueueSubscribe conn group ch = (.error (notPushBased c), [])
      ∧ c.SubscribeSync conn = (.error (notPushBased c), [])
      ∧ c.QueueSubscribe conn queue h = (.error (notPushBased c), [])
      ∧ c.QueueSubscribeSync conn queue = (.error (notPushBased c), [])
      ∧ c.QueueSubscribeSyncWithChan conn queue ch = (.error (notPushBased c), []))
    ∧ (c.IsPushMode = true → c.NextMsgs conn n = (.error (notPullBased c), []))
    ∧ c.NextMsg conn = c.NextMsgs conn 1 := by
  refine ⟨?_, ?_, rfl⟩
  · intro hp
    have hpm : (!c.IsPushMode) = true := by simp [Consumer.IsPushMode, hp]
    exact ⟨by simp [Consumer.Subscribe, hpm], by simp [Consumer.ChanSubscribe, hpm],
      by simp [Consumer.ChanQueueSubscribe, hpm], by simp [Consumer.SubscribeSync, hpm],
      by simp [Consumer.QueueSubscribe, hpm], by simp [Consumer.QueueSubscribeSync, hpm],
      by simp [Consumer.QueueSubscribeSyncWithChan, hpm]⟩
  · intro hp
    have hpl : c.IsPullMode = false := by simpa [Consumer.IsPushMode] using hp
    simp [Consumer.NextMsgs, hpl]

/-- C9 witness: a concrete pull-mode handle rejects subscription, a
concrete push-mode handle rejects fetch-next, and fetch-one on the pull
handle is fetch-next(1). -/
theorem modePreconditions_witness :
    Consumer.Subscribe sampleConn { name := "C1", stream := "ORDERS" } 0
      = (.error "consumer ORDERS > C1 is not push-based", [])
    ∧ Consumer.NextMsgs sampleConn
        { name := "C2", stream := "ORDERS", cfg := { Delivery := "_INBOX.x" } } 1
      = (.error "consumer ORDERS > C2 is not pull-based", [])
    ∧ Consumer.NextMsg sampleConn { name := "C1", stream := "ORDERS" }
      = Consumer.NextMsgs sampleConn { name := "C1", stream := "ORDERS" } 1 :=
  ⟨((modePreconditions sampleConn { name := "C1", stream := "ORDERS" }
      0 0 "G" "Q" 1).1 (by decide)).1,
   (modePreconditions sampleConn
      { name := "C2", stream := "ORDERS", cfg := { Delivery := "_INBOX.x" } }
      0 0 "G" "Q" 1).2.1 (by decide),
   (modePreconditions sampleConn { name := "C1", stream := "ORDERS" }
      0 0 "G" "Q" 1).2.2⟩

/-- C10: if Reset fails — transport error, error-marker response, or
unparsable response — the handle keeps its name, stream and cached
configuration exactly as they were; the cached configuration is replaced
only after a fully successful load, and name and stream never change. -/
theorem resetFailurePreserves (conn : Conn) (c : Consumer) :
    (Consumer.Reset conn c).1.2.name = c.name
    ∧ (Consumer.Reset conn c).1.2.stream = c.stream
    ∧ (∀ e, (Consumer.Reset conn c).1.1 = .error e → (Consumer.Reset conn c).1.2 = c)
    ∧ (∀ u, (Consumer.Reset conn c).1.1 = .ok u →
        ∃ info tr, loadConsumerInfo conn c.stream c.name = (.ok info, tr)
          ∧ (Consumer.Reset conn c).1.2 = { c with cfg := info.Config }) := by
  unfold Consumer.Reset loadConfigForConsumer
  rcases h : loadConsumerInfo conn c.stream c.name with ⟨r, tr⟩
  cases r with
  | error e => exact ⟨rfl, rfl, fun _ _ => rfl, fun u hu => by simp at hu⟩
  | ok info =>
    exact ⟨rfl, rfl, fun e he => by simp at he, fun u _ => ⟨info, tr, rfl, rfl⟩⟩

/-- C10 witness: Reset against a timing-out server leaves a concrete
handle untouched; against a healthy server it replaces only the cached
configuration. -/
theorem resetFailurePreserves_witness :
    (Consumer.Reset failConn
        { name := "C1", stream := "ORDERS", cfg := DefaultConsumer }).1.2
      = { name := "C1", stream := "ORDERS", cfg := DefaultConsumer }
    ∧ (Consumer.Reset sampleConn
        { name := "C1", stream := "ORDERS", cfg := DefaultConsumer }).1.2
      = { name := "C1", stream := "ORDERS", cfg := sampleInfo.Config } := by
  constructor
  · exact (resetFailurePreserves failConn
      { name := "C1", stream := "ORDERS", cfg := DefaultConsumer }).2.2.1
      "nats: timeout" rfl
  · obtain ⟨info, tr, h1, h2⟩ := (resetFailurePreserves sampleConn
      { name := "C1", stream := "ORDERS", cfg := DefaultConsumer }).2.2.2 () rfl
    have hc : loadConsumerInfo sampleConn "ORDERS" "C1"
        = (.ok sampleInfo, [.infoRequest "ORDERS C1"]) := rfl
    rw [hc] at h1
    have h1' := (Prod.mk.injEq _ _ _ _ ▸ h1).1
    injection h1' with hinfo
    rw [h2, ← hinfo]

/-- C2 counterexample: applying StartAtSequence(5) and then
DeliverAllAvailable() does not erase the earlier start-position setting —
the resulting descriptor still carries MsgSetSeq = 5 — and the two options
commute (both orders yield the identical descriptor), refuting the claimed
order-sensitivity of this pair. -/
theorem startPosition_overlap_counterexample :
    (NewConsumerConfiguration DefaultConsumer
        [StartAtSequence 5, DeliverAllAvailable]).1.MsgSetSeq = 5
    ∧ NewConsumerConfiguration DefaultConsumer
        [StartAtSequence 5, DeliverAllAvailable]
      = NewConsumerConfiguration DefaultConsumer
        [DeliverAllAvailable, StartAtSequence 5] :=
  ⟨rfl, rfl⟩

/-- C2 (amended): each option writes only its own field, so
StartAtSequence(5) followed by DeliverAllAvailable() sets DeliverAll while
leaving MsgSetSeq = 5 in the descriptor (the later option is additionally
in effect, the earlier field is not cleared), the two options commute, and
order matters exactly for options writing the same field (last writer
wins). -/
theorem startPosition_lastWrite (o : ObservableConfig) :
    NewConsumerConfiguration o [StartAtSequence 5, DeliverAllAvailable]
      = ({ o with MsgSetSeq := 5, DeliverAll := true }, none)
    ∧ NewConsumerConfiguration o [DeliverAllAvailable, StartAtSequence 5]
      = ({ o with MsgSetSeq := 5, DeliverAll := true }, none)
    ∧ NewConsumerConfiguration o [StartAtSequence 5, StartAtSequence 6]
      = ({ o with MsgSetSeq := 6 }, none)
    ∧ NewConsumerConfiguration o [StartAtSequence 6, StartAtSequence 5]
      = ({ o with MsgSetSeq := 5 }, none) :=
  ⟨rfl, rfl, rfl, rfl⟩

/-- C3: MaxDeliveryAttempts(n) succeeds for every n ≠ 0 and sets
MaxDeliver to n; MaxDeliveryAttempts(0) fails with "configuration would
prevent all deliveries" and leaves the descriptor unchanged. -/
theorem maxDeliveryAttempts_spec (n : Int) (o : ObservableConfig) :
    (n ≠ 0 → MaxDeliveryAttempts n o = ({ o with MaxDeliver := n }, none))
    ∧ MaxDeliveryAttempts 0 o
      = (o, some "configuration would prevent all deliveries") := by
  constructor
  · intro hn
    simp only [MaxDeliveryAttempts]
    rw [if_neg (by simpa using hn)]
  · rfl

/-- C3 witness: MaxDeliveryAttempts at 3 and at 0 on the default
template. -/
theorem maxDeliveryAttempts_spec_witness :
    MaxDeliveryAttempts 3 DefaultConsumer
      = ({ DefaultConsumer with MaxDeliver := 3 }, none)
    ∧ MaxDeliveryAttempts 0 DefaultConsumer
      = (DefaultConsumer, some "configuration would prevent all deliveries") :=
  ⟨(maxDeliveryAttempts_spec 3 DefaultConsumer).1 (by decide),
   (maxDeliveryAttempts_spec 0 DefaultConsumer).2⟩

/-- C4: SamplePercent(i) succeeds iff 0 ≤ i ≤ 100, otherwise fails with
"sample percent must be 0-100" leaving the descriptor unchanged;
SamplePercent(0) clears the sample frequency so the handle is unsampled;
for 1 ≤ i ≤ 100 the handle becomes sampled. -/
theorem samplePercent_spec (i : Int) (o : ObservableConfig) :
    ((SamplePercent i o).2 = none ↔ 0 ≤ i ∧ i ≤ 100)
    ∧ (¬(0 ≤ i ∧ i ≤ 100) →
        SamplePercent i o = (o, some "sample percent must be 0-100"))
    ∧ SamplePercent 0 o = ({ o with SampleFrequency := "" }, none)
    ∧ (∀ nm st, Consumer.IsSampled
        { name := nm, stream := st, cfg := (SamplePercent 0 o).1 } = false)
    ∧ (1 ≤ i → i ≤ 100 → ∀ nm st, Consumer.IsSampled
        { name := nm, stream := st, cfg := (SamplePercent i o).1 } = true) := by
  refine ⟨?_, ?_, rfl, fun nm st => rfl, ?_⟩
  · rcases Decidable.em (0 ≤ i ∧ i ≤ 100) with hin | hout
    · have hr : (SamplePercent i o).2 = none := by
        simp only [SamplePercent]
        rw [if_neg (by simp; omega)]
        split <;> rfl
      simp [hr, hin]
    · have hr : (SamplePercent i o).2 = some "sample percent must be 0-100" := by
        simp only [SamplePercent]
        rw [if_pos (by simp; omega)]
      simp [hr, hout]
  · intro hout
    simp only [SamplePercent]
    rw [if_pos (by simp; omega)]
  · intro h1 h100 nm st
    have hfreq : (SamplePercent i o).1.SampleFrequency = toString i ++ "%" := by
      simp only [SamplePercent]
      rw [if_neg (by simp; omega), if_neg (by simp; omega)]
    have hne : ((toString i ++ "%") == "") = false := by
      simp only [beq_eq_false_iff_ne, ne_eq]
      exact percent_ne_empty _
    simp only [Consumer.IsSampled, Consumer.SampleSubject,
      Consumer.SampleFrequency, hfreq, hne, Bool.false_eq_true, if_false,
      bne_iff_ne, ne_eq]
    exact dotted_ne_empty _ _ _

/-- C4 witness: SamplePercent at 101 (rejected), at 50 (sampled) and at 0
(cleared) on concrete descriptors. -/
theorem samplePercent_spec_witness :
    SamplePercent 101 DefaultConsumer
      = (DefaultConsumer, some "sample percent must be 0-100")
    ∧ Consumer.IsSampled
        { name := "C1", stream := "ORDERS",
          cfg := (SamplePercent 50 DefaultConsumer).1 } = true
    ∧ Consumer.IsSampled
        { name := "C1", stream := "ORDERS",
          cfg := (SamplePercent 0 SampledDefaultConsumer).1 } = false :=
  ⟨(samplePercent_spec 101 DefaultConsumer).2.1 (by decide),
   (samplePercent_spec 50 DefaultConsumer).2.2.2.2 (by decide) (by decide)
     "C1" "ORDERS",
   (samplePercent_spec 0 SampledDefaultConsumer).2.2.2.1 "C1" "ORDERS"⟩

/-- C5: a handle is pull-mode iff its delivery subject is empty, push-mode
is exactly the negation, and the two modes are mutually exclusive and
exhaustive. -/
theorem pullPushModes (c : Consumer) :
    (c.IsPullMode = true ↔ c.cfg.Delivery = "")
    ∧ c.IsPushMode = !c.IsPullMode
    ∧ (c.IsPullMode = true ∨ c.IsPushMode = true)
    ∧ ¬(c.IsPullMode = true ∧ c.IsPushMode = true) := by
  refine ⟨?_, rfl, ?_, ?_⟩
  · simp [Consumer.IsPullMode]
  · cases hb : c.IsPullMode with
    | true => exact Or.inl rfl
    | false => exact Or.inr (by simp [Consumer.IsPushMode, hb])
  · rintro ⟨h1, h2⟩
    simp [Consumer.IsPushMode, h1] at h2

/-- C5 witness: a handle with an empty delivery subject is pull-mode and
not push-mode. -/
theorem pullPushModes_witness :
    Consumer.IsPullMode { name := "C1", stream := "ORDERS" } = true
    ∧ Consumer.IsPushMode { name := "C1", stream := "ORDERS" }
      = !Consumer.IsPullMode { name := "C1", stream := "ORDERS" } :=
  ⟨(pullPushModes { name := "C1", stream := "ORDERS" }).1.mpr rfl,
   (pullPushModes { name := "C1", stream := "ORDERS" }).2.1⟩

/-- C6: the next-request subject is non-empty iff the handle is pull-mode
(empty for push-mode), the sample subject is non-empty iff the handle is
sampled (empty otherwise), and each, when non-empty, is deterministically
the fixed prefix, the stream name and the consumer name joined by dots. -/
theorem derivedSubjects (c : Consumer) :
    (c.NextSubject ≠ "" ↔ c.IsPullMode = true)
    ∧ (c.IsPushMode = true → c.NextSubject = "")
    ∧ (c.SampleSubject ≠ "" ↔ c.IsSampled = true)
    ∧ (c.IsSampled = false → c.SampleSubject = "")
    ∧ (c.IsPullMode = true →
        c.NextSubject = JetStreamRequestNextPre ++ "." ++ c.stream ++ "." ++ c.name)
    ∧ (c.IsSampled = true →
        c.SampleSubject
          = JetStreamObservableAckSamplePre ++ "." ++ c.stream ++ "." ++ c.name) := by
  refine ⟨?_, ?_, ?_, ?_, ?_, ?_⟩
  · cases hp : c.IsPullMode with
    | true =>
      simp only [Consumer.NextSubject, hp, Bool.not_true, Bool.false_eq_true,
        if_false, iff_true]
      exact dotted_ne_empty _ _ _
    | false =>
      simp [Consumer.NextSubject, hp]
  · intro hp
    have : c.IsPullMode = false := by
      simpa [Consumer.IsPushMode] using hp
    simp [Consumer.NextSubject, this]
  · simp [Consumer.IsSampled]
  · intro hs
    simpa [Consumer.IsSampled] using hs
  · intro hp
    simp [Consumer.NextSubject, hp]
  · intro hs
    simp only [Consumer.IsSampled, bne_iff_ne, ne_eq] at hs
    by_cases hf : (Consumer.SampleFrequency c == "") = true
    · exact absurd (by simp [Consumer.SampleSubject, hf]) hs
    · simp only [Consumer.SampleSubject, Consumer.StreamName, hf,
        Bool.false_eq_true, if_false]

/-- C6 witness: subjects of a concrete pull-mode sampled handle and of a
concrete push-mode unsampled handle. -/
theorem derivedSubjects_witness :
    Consumer.NextSubject
        { name := "C1", stream := "ORDERS", cfg := { SampleFrequency := "50%" } }
      = "$JS.RN.ORDERS.C1"
    ∧ Consumer.SampleSubject
        { name := "C1", stream := "ORDERS", cfg := { SampleFrequency := "50%" } }
      = "$JS.OA.ORDERS.C1"
    ∧ Consumer.NextSubject
        { name := "C2", stream := "ORDERS", cfg := { Delivery := "_INBOX.x" } }
      = "" :=
  ⟨(derivedSubjects _).2.2.2.2.1 (by decide),
   (derivedSubjects _).2.2.2.2.2 (by decide),
   (derivedSubjects _).2.1 (by decide)⟩

end Jsch
